import Mathlib

/-!
Shallow embedding of `src/backend/asteroids.py` (the Asteroid-Atlas batch
pipeline).  The per-object processing loop (lines 51-124 of the source) is
modelled as an `Except`-valued state transformer: exceptions raised inside
the `try` block of the source are caught (the object is skipped), while an
exception raised by the small-body-database HTTP request itself (line 57,
which sits before the `try`) propagates and aborts the whole batch.
Machine floats are modelled as exact rationals on the data side and as real
numbers inside the trigonometric orbit transform (lines 78-100).
-/

namespace AsteroidAtlas

/-- Python values as they appear in the decoded JSON payloads: `None`,
strings, and numbers (JSON numbers modelled as exact rationals). -/
inductive PyVal where
  | vnone : PyVal
  | vstr : String → PyVal
  | vnum : ℚ → PyVal
deriving DecidableEq, Repr

/-- Accumulate the value of a nonempty all-digit character list; `none` as
soon as a non-digit is met. -/
def decDigits? (l : List Char) : Option ℕ :=
  l.foldlM (fun acc c => if c.isDigit then some (acc * 10 + (c.toNat - 48)) else none) 0

/-- Modelled from the Python builtin `float` applied to a string (the source
calls `float(...)` on SBDB element values and on the close-approach
velocity): an optional sign, a decimal integer part, an optional single
decimal point and fraction part.  Any other shape raises `ValueError`,
modelled as `none`. -/
def pyFloatOfChars? (l0 : List Char) : Option ℚ :=
  let signAndRest : Bool × List Char :=
    match l0 with
    | '-' :: rest => (true, rest)
    | '+' :: rest => (false, rest)
    | _ => (false, l0)
  let neg := signAndRest.1
  let l := signAndRest.2
  match l.span (fun c => c != '.') with
  | (ip, []) =>
    if ip.isEmpty then none
    else (decDigits? ip).map (fun n => if neg then -(n : ℚ) else (n : ℚ))
  | (ip, _dot :: fp) =>
    if ip.isEmpty && fp.isEmpty then none
    else do
      let i ← decDigits? ip
      let f ← decDigits? fp
      let q : ℚ := (i : ℚ) + (f : ℚ) / (10 ^ fp.length)
      pure (if neg then -q else q)

/-- Modelled from the Python builtin `float` applied to a JSON value:
numbers convert to themselves, strings are parsed, `None` raises
(`TypeError`, modelled as `none`). -/
def pyFloat? : PyVal → Option ℚ
  | PyVal.vnum q => some q
  | PyVal.vstr s => pyFloatOfChars? s.data
  | PyVal.vnone => none

/-- Python-dict insertion: updating an existing key keeps its position and
replaces the value; a new key is appended at the end. -/
def dictInsert {α : Type} (k : String) (v : α) : List (String × α) → List (String × α)
  | [] => [(k, v)]
  | (k2, v2) :: rest =>
    if k2 = k then (k, v) :: rest else (k2, v2) :: dictInsert k v rest

/-- Python-dict lookup (`d[k]` / `k in d`). -/
def dictLookup {α : Type} (k : String) : List (String × α) → Option α
  | [] => none
  | (k2, v2) :: rest => if k2 = k then some v2 else dictLookup k rest

/-- The key list of a Python dict, in insertion order. -/
def dictKeys {α : Type} (d : List (String × α)) : List String :=
  d.map Prod.fst

/-- Remove every occurrence of one character, modelling Python
`s.replace(c, '')` for a single-character pattern. -/
def removeChar (c : Char) (l : List Char) : List Char :=
  l.filter (fun x => x != c)

/-- Line 54 of the source: the SBDB search string is the object name with
`' '`, `'('`, `')'` removed by three successive `replace` calls, then the
first six characters dropped (`[6:]`). -/
def sbdbKey (s : String) : String :=
  ⟨(removeChar ')' (removeChar '(' (removeChar ' ' s.data))).drop 6⟩

/-- One entry of the SBDB `orbit.elements` array: a JSON object that may or
may not carry `name` and `value` fields. -/
structure SbdbElem where
  name : Option String
  value : Option PyVal
deriving DecidableEq, Repr

/-- The SBDB `orbit` sub-object; its `elements` field may be absent. -/
structure OrbitObj where
  elements : Option (List SbdbElem)
deriving DecidableEq, Repr

/-- The decoded SBDB JSON payload; the `orbit` field may be absent. -/
structure SbdbJson where
  orbit : Option OrbitObj
deriving DecidableEq, Repr

/-- Lines 60: `sbdb_json.get('orbit', {}).get('elements', [])`. -/
def elementsList (j : SbdbJson) : List SbdbElem :=
  match j.orbit with
  | none => []
  | some o => o.elements.getD []

/-- Line 61: the dict comprehension
`{el['name']: el['value'] for el in elements_list if 'name' in el and 'value' in el}`. -/
def elementsDict (j : SbdbJson) : List (String × PyVal) :=
  (elementsList j).foldl
    (fun d el =>
      match el.name, el.value with
      | some n, some v => dictInsert n v d
      | _, _ => d)
    []

/-- Line 63: `required_keys = ['a', 'e', 'i', 'om', 'w', 'ma']`. -/
def requiredKeys : List String := ["a", "e", "i", "om", "w", "ma"]

/-- Line 64 membership test: `elements[k] not in (None, '', 'null')`. -/
def notNullish : PyVal → Bool
  | PyVal.vnone => false
  | PyVal.vstr s => !(s == "" || s == "null")
  | PyVal.vnum _ => true

/-- Line 64: `all(k in elements and elements[k] not in (None, '', 'null') for k in required_keys)`. -/
def requiredOk (els : List (String × PyVal)) : Bool :=
  requiredKeys.all (fun k =>
    match dictLookup k els with
    | some v => notNullish v
    | none => false)

/-- The six converted orbital elements of lines 67-72 (`ma` is converted and
passed to the orbit constructor but not used by the coordinate loop). -/
structure OrbElems where
  a : ℚ
  e : ℚ
  i : ℚ
  om : ℚ
  w : ℚ
  ma : ℚ
deriving DecidableEq, Repr

/-- Lines 67-72: the six `float(elements[...])` conversions; any failure
raises `ValueError` inside the `try` block, modelled as `none`. -/
def floatElems (els : List (String × PyVal)) : Option OrbElems := do
  let a ← dictLookup "a" els >>= pyFloat?
  let e ← dictLookup "e" els >>= pyFloat?
  let i ← dictLookup "i" els >>= pyFloat?
  let om ← dictLookup "om" els >>= pyFloat?
  let w ← dictLookup "w" els >>= pyFloat?
  let ma ← dictLookup "ma" els >>= pyFloat?
  pure ⟨a, e, i, om, w, ma⟩

/-- Modelled from line 74, `Orbit.from_classical` (poliastro): its element
validation raises `ValueError` when the eccentricity equals 1 (parabolic),
when the inclination lies outside [0, 180] degrees, or when the
eccentricity exceeds 1 with a positive semi-major axis; the raise happens
inside the `try` and is caught at line 123, skipping the object before any
map is written. -/
def fromClassicalOk (el : OrbElems) : Bool :=
  decide (el.e ≠ 1) && decide (0 ≤ el.i ∧ el.i ≤ 180) &&
    !(decide (1 < el.e) && decide (0 < el.a))

/-- The `relative_velocity` sub-object of a close-approach entry. -/
structure RelVel where
  kilometersPerSecond : Option PyVal
deriving DecidableEq, Repr

/-- One entry of the feed record's `close_approach_data` array. -/
structure CloseApproach where
  relativeVelocity : Option RelVel
deriving DecidableEq, Repr

/-- The `kilometers` sub-object of `estimated_diameter`. -/
structure KmDiam where
  estimatedDiameterMax : Option PyVal
deriving DecidableEq, Repr

/-- The `estimated_diameter` sub-object of a feed record. -/
structure EstDiam where
  kilometers : Option KmDiam
deriving DecidableEq, Repr

/-- A raw near-Earth-object feed record: each field models the presence or
absence of the corresponding JSON key. -/
structure NeoRecord where
  name : Option String
  estimatedDiameter : Option EstDiam
  closeApproachData : Option (List CloseApproach)
deriving DecidableEq, Repr

/-- Lines 104 and 119: `asteroid.get('name', 'unknown')`. -/
def nameKey (ast : NeoRecord) : String :=
  ast.name.getD "unknown"

/-- Line 54: the lookup key is derived from `asteroid.get('name', '')`. -/
def sbdbKeyOf (ast : NeoRecord) : String :=
  sbdbKey (ast.name.getD "")

/-- Lines 108-112: the size extraction; only guarded key lookups, so it can
never raise. -/
def extractSize (ast : NeoRecord) : Option PyVal :=
  match ast.estimatedDiameter with
  | some ed =>
    match ed.kilometers with
    | some km => km.estimatedDiameterMax
    | none => none
  | none => none

/-- Lines 114-118: the speed extraction; the final
`float(cad['relative_velocity']['kilometers_per_second'])` can raise, which
the source catches at line 123 — but only after the orbit map was already
updated at line 104. -/
def extractSpeed (ast : NeoRecord) : Except String (Option ℚ) :=
  match ast.closeApproachData with
  | some (cad :: _) =>
    match cad.relativeVelocity with
    | some rv =>
      match rv.kilometersPerSecond with
      | some v =>
        match pyFloat? v with
        | some q => Except.ok (some q)
        | none => Except.error "could not convert string to float"
      | none => Except.ok none
    | none => Except.ok none
  | _ => Except.ok none

/-- Whether the speed extraction of lines 114-118 completes without
raising (the `float(...)` call succeeds or is never reached). -/
def speedConvOk (ast : NeoRecord) : Bool :=
  match extractSpeed ast with
  | Except.ok _ => true
  | Except.error _ => false

/-- Outcome of the `requests.get(sbdb_url)` call at line 57 (outside the
`try`): either the request itself raises (network error), or a response is
obtained whose `.json()` call (line 59, inside the `try`) either decodes or
raises. -/
inductive FetchResult where
  | netErr : String → FetchResult
  | response : Except String SbdbJson → FetchResult

/-- The external SBDB service, as a function from the derived search string
to what `requests.get` does for it. -/
def SbdbWorld : Type := String → FetchResult

/-- One value of the properties artifact (lines 119-122). -/
structure PropEntry where
  sizeKm : Option PyVal
  speedKmS : Option ℚ
deriving DecidableEq, Repr

/-- A sampled orbit point `[x, y, z]` in kilometers. -/
def Point3 : Type := ℝ × ℝ × ℝ

/-- The two accumulator dicts of lines 49-50
(`asteroid_orbits`, `asteroid_properties`). -/
structure BatchState where
  orbits : List (String × List Point3)
  props : List (String × PropEntry)

/-- The initial state: both dicts empty (lines 49-50). -/
def initState : BatchState := ⟨[], []⟩

/-- Line 78: `num_points = 200`. -/
def numPoints : ℕ := 200

/-- Line 79: `np.linspace(0, 2 * np.pi, num_points)` — `num_points` samples
starting at `0` with step `2π / (num_points - 1)`, so both endpoints `0`
and `2π` are included. -/
noncomputable def trueAnomalies : List ℝ :=
  (List.range numPoints).map (fun k : ℕ => (k : ℝ) * (2 * Real.pi / ((numPoints : ℝ) - 1)))

/-- Lines 87-100: one iteration of the coordinate loop, at true anomaly
`ta`, with the semi-major axis already in kilometers and all angles in
radians. -/
noncomputable def orbitPoint (aKm e iRad omRad wRad ta : ℝ) : Point3 :=
  let r := aKm * (1 - e ^ 2) / (1 + e * Real.cos ta)
  let xp := r * Real.cos ta
  let yp := r * Real.sin ta
  let cosO := Real.cos omRad
  let sinO := Real.sin omRad
  let cosw := Real.cos wRad
  let sinw := Real.sin wRad
  let cosi := Real.cos iRad
  let sini := Real.sin iRad
  ((cosO * cosw - sinO * sinw * cosi) * xp + (-cosO * sinw - sinO * cosw * cosi) * yp,
   (sinO * cosw + cosO * sinw * cosi) * xp + (-sinO * sinw + cosO * cosw * cosi) * yp,
   (sinw * sini) * xp + (cosw * sini) * yp)

/-- Lines 86-100: the full coordinate loop over the sampled true anomalies. -/
noncomputable def orbitPathKm (aKm e iRad omRad wRad : ℝ) : List Point3 :=
  trueAnomalies.map (orbitPoint aKm e iRad omRad wRad)

/-- Lines 81-85 and 86-100: unit conversions (`a.to(u.km)` with
1 AU = 149597870.7 km; degrees to radians) followed by the coordinate loop. -/
noncomputable def orbitCoords (el : OrbElems) : List Point3 :=
  orbitPathKm ((el.a : ℝ) * 149597870.7) (el.e : ℝ)
    ((el.i : ℝ) * Real.pi / 180) ((el.om : ℝ) * Real.pi / 180)
    ((el.w : ℝ) * Real.pi / 180)

/-- Lines 53-124: processing of one feed record.  The `requests.get` of
line 57 is before the `try`, so a network error there yields
`Except.error` (batch aborted).  Everything from `.json()` (line 59)
onward is inside the `try`: any raise there is caught at line 123 and the
loop continues with the state as mutated so far.  The missing-elements
check (lines 64-66) `continue`s without raising.  Line 74
(`Orbit.from_classical`) raises for elements failing `fromClassicalOk`,
and line 75 (`asteroid['name']`) raises `KeyError` for a record without a
name; both raises are caught before any map is updated. -/
noncomputable def processObject (world : SbdbWorld) (st : BatchState) (ast : NeoRecord) :
    Except String BatchState :=
  match world (sbdbKeyOf ast) with
  | FetchResult.netErr msg => Except.error msg
  | FetchResult.response (Except.error _msg) => Except.ok st
  | FetchResult.response (Except.ok j) =>
    let els := elementsDict j
    if requiredOk els then
      match floatElems els with
      | none => Except.ok st
      | some el =>
        if fromClassicalOk el then
          match ast.name with
          | none => Except.ok st
          | some _nm =>
            let orbits2 := dictInsert (nameKey ast) (orbitCoords el) st.orbits
            match extractSpeed ast with
            | Except.error _msg => Except.ok { st with orbits := orbits2 }
            | Except.ok speed =>
              Except.ok
                { orbits := orbits2,
                  props := dictInsert (nameKey ast) ⟨extractSize ast, speed⟩ st.props }
        else Except.ok st
    else Except.ok st

/-- Lines 51-124: the nested batch loop over the date-keyed feed
(`for date, ast_list in astroids.items(): for asteroid in ast_list`),
starting from the two empty dicts. -/
noncomputable def runBatch (world : SbdbWorld) (feed : List (String × List NeoRecord)) :
    Except String BatchState :=
  feed.foldlM (fun st pr => pr.2.foldlM (processObject world) st) initState

/-- Spec-side rendering of the lookup-key sentence: the name with all
space, `'('` and `')'` characters removed, then the first six characters
of the resulting string discarded. -/
def specLookupKey (s : String) : String :=
  ⟨(s.data.filter (fun c => !(c == ' ' || c == '(' || c == ')'))).drop 6⟩

/-- Key list of the orbit-coordinates artifact of a finished (non-aborted)
batch; an aborted batch writes nothing. -/
def orbitKeysOf (r : Except String BatchState) : List String :=
  match r with
  | Except.ok st => dictKeys st.orbits
  | Except.error _ => []

/-- Key list of the properties artifact of a finished (non-aborted) batch. -/
def propKeysOf (r : Except String BatchState) : List String :=
  match r with
  | Except.ok st => dictKeys st.props
  | Except.error _ => []

/-- Fixture: an SBDB payload carrying all six required elements as numbers. -/
def jsonFull : SbdbJson :=
  ⟨some ⟨some [⟨some "a", some (PyVal.vnum 2)⟩, ⟨some "e", some (PyVal.vnum 0)⟩,
    ⟨some "i", some (PyVal.vnum 10)⟩, ⟨some "om", some (PyVal.vnum 20)⟩,
    ⟨some "w", some (PyVal.vnum 30)⟩, ⟨some "ma", some (PyVal.vnum 40)⟩]⟩⟩

/-- Fixture: the converted elements of `jsonFull`. -/
def elemsFull : OrbElems := ⟨2, 0, 10, 20, 30, 40⟩

/-- Fixture: an SBDB payload whose elements lack the `e` field. -/
def jsonMissingE : SbdbJson :=
  ⟨some ⟨some [⟨some "a", some (PyVal.vnum 2)⟩,
    ⟨some "i", some (PyVal.vnum 10)⟩, ⟨some "om", some (PyVal.vnum 20)⟩,
    ⟨some "w", some (PyVal.vnum 30)⟩, ⟨some "ma", some (PyVal.vnum 40)⟩]⟩⟩

/-- Fixture: a service answering every query with `jsonFull`. -/
def worldFull : SbdbWorld := fun _ => FetchResult.response (Except.ok jsonFull)

/-- Fixture: a service answering every query with `jsonMissingE`. -/
def worldMissingE : SbdbWorld := fun _ => FetchResult.response (Except.ok jsonMissingE)

/-- Fixture: a service whose `requests.get` raises a connection error. -/
def worldNet : SbdbWorld := fun _ => FetchResult.netErr "connection refused"

/-- Fixture: a service returning a response whose `.json()` raises. -/
def worldBadJson : SbdbWorld := fun _ => FetchResult.response (Except.error "Expecting value")

/-- Fixture: a named record with no close-approach key at all. -/
def recPlainX : NeoRecord := ⟨some "X", none, none⟩

/-- Fixture: a named record whose first close-approach velocity is a
non-numeric string, so `float(...)` at line 118 raises. -/
def recBadSpeed : NeoRecord :=
  ⟨some "X", none, some [⟨some ⟨some (PyVal.vstr "fast")⟩⟩]⟩

/-- Fixture: a named record whose close-approach array is present but empty. -/
def recEmptyCad : NeoRecord := ⟨some "Y", none, some []⟩

/-- Fixture: a record named `X` with close-approach speed 5 km/s. -/
def recSpeed5 : NeoRecord :=
  ⟨some "X", none, some [⟨some ⟨some (PyVal.vnum 5)⟩⟩]⟩

/-- Fixture: a record named `X` with close-approach speed 7 km/s. -/
def recSpeed7 : NeoRecord :=
  ⟨some "X", none, some [⟨some ⟨some (PyVal.vnum 7)⟩⟩]⟩

/-- Fixture: the batch state after successfully processing `recSpeed5`
against `worldFull`. -/
noncomputable def stateAfterSpeed5 : BatchState :=
  ⟨[("X", orbitCoords elemsFull)], [("X", ⟨none, some 5⟩)]⟩

/-! ## Helper lemmas -/

theorem trueAnomalies_getElem (k : ℕ) (hk : k < 200) :
    trueAnomalies[k]? = some ((k : ℝ) * (2 * Real.pi / 199)) := by
  have h200 : (List.range 200)[k]? = some k := List.getElem?_range hk
  simp only [trueAnomalies, numPoints, List.getElem?_map, h200, Option.map_some']
  norm_num

theorem orbitPoint_mem_path (a e i om w : ℝ) (k : ℕ) (hk : k < numPoints) :
    orbitPoint a e i om w ((k : ℝ) * (2 * Real.pi / ((numPoints : ℝ) - 1))) ∈
      orbitPathKm a e i om w := by
  unfold orbitPathKm trueAnomalies
  exact List.mem_map_of_mem _ (List.mem_map_of_mem _ (List.mem_range.mpr hk))

theorem orbitPoint_two_pi (a e i om w : ℝ) :
    orbitPoint a e i om w (2 * Real.pi) = orbitPoint a e i om w 0 := by
  simp [orbitPoint, Real.cos_two_pi, Real.sin_two_pi]

theorem orbitPoint_normSq_circular (a i om w θ : ℝ) :
    (orbitPoint a 0 i om w θ).1 ^ 2 + (orbitPoint a 0 i om w θ).2.1 ^ 2 +
      (orbitPoint a 0 i om w θ).2.2 ^ 2 = a ^ 2 := by
  have hO := Real.sin_sq_add_cos_sq om
  have hw := Real.sin_sq_add_cos_sq w
  have hi := Real.sin_sq_add_cos_sq i
  have hθ := Real.sin_sq_add_cos_sq θ
  simp only [orbitPoint]
  norm_num
  linear_combination
    (a ^ 2 * Real.cos θ ^ 2 * (Real.cos w ^ 2 + Real.sin w ^ 2 * Real.cos i ^ 2) +
        a ^ 2 * Real.sin θ ^ 2 * (Real.sin w ^ 2 + Real.cos w ^ 2 * Real.cos i ^ 2) +
        2 * a ^ 2 * Real.cos θ * Real.sin θ * Real.sin w * Real.cos w *
          (Real.cos i ^ 2 - 1)) * hO +
    (a ^ 2 * Real.cos θ ^ 2 * Real.sin w ^ 2 + a ^ 2 * Real.sin θ ^ 2 * Real.cos w ^ 2 +
        2 * a ^ 2 * Real.cos θ * Real.sin θ * Real.sin w * Real.cos w) * hi +
    (a ^ 2 * Real.cos θ ^ 2 + a ^ 2 * Real.sin θ ^ 2) * hw +
    a ^ 2 * hθ

/-! ## Claim theorems -/

/-- Claim C6: the small-body database lookup key equals the object name
with all space, `'('` and `')'` characters removed and the first six
characters of the result discarded. -/
theorem sbdbKey_eq_specLookupKey (s : String) : sbdbKey s = specLookupKey s := by
  unfold sbdbKey specLookupKey removeChar
  rw [List.filter_filter, List.filter_filter]
  congr 1
  refine congrArg (List.drop 6) ?_
  refine List.filter_congr ?_
  intro a _
  cases h1 : a == ' ' <;> cases h2 : a == '(' <;> cases h3 : a == ')' <;>
    simp [bne, h1, h2, h3]

/-- Claim C3: for every orbital-element input the transform produces
exactly 200 points; index 0 is sampled at true anomaly 0, index 199 at
true anomaly 2π, and the two points are equal. -/
theorem orbitPath_length_and_duplicate (a e i om w : ℝ) :
    (orbitPathKm a e i om w).length = 200 ∧
    (orbitPathKm a e i om w)[0]? = some (orbitPoint a e i om w 0) ∧
    (orbitPathKm a e i om w)[199]? = some (orbitPoint a e i om w (2 * Real.pi)) ∧
    (orbitPathKm a e i om w)[0]? = (orbitPathKm a e i om w)[199]? := by
  have h0 : ((0 : ℕ) : ℝ) * (2 * Real.pi / 199) = 0 := by norm_num
  have h199 : ((199 : ℕ) : ℝ) * (2 * Real.pi / 199) = 2 * Real.pi := by
    push_cast
    ring
  have g0 : (orbitPathKm a e i om w)[0]? = some (orbitPoint a e i om w 0) := by
    simp only [orbitPathKm, List.getElem?_map, trueAnomalies_getElem 0 (by norm_num),
      Option.map_some']
    rw [h0]
  have g199 : (orbitPathKm a e i om w)[199]? = some (orbitPoint a e i om w (2 * Real.pi)) := by
    simp only [orbitPathKm, List.getElem?_map, trueAnomalies_getElem 199 (by norm_num),
      Option.map_some']
    rw [h199]
  refine ⟨?_, g0, g199, ?_⟩
  · simp only [orbitPathKm, trueAnomalies, List.length_map, List.length_range, numPoints]
  · rw [g0, g199, orbitPoint_two_pi]

/-- Claim C4 counterexample: the sampled angle at index 199 is exactly 2π
(so the sampling range is not half-open), and at a concrete input the
point at index 199 duplicates the point at index 0. -/
theorem sampled_angle_hits_two_pi :
    trueAnomalies[199]? = some (2 * Real.pi) ∧
    (orbitPathKm 1 0 0 0 0)[199]? = (orbitPathKm 1 0 0 0 0)[0]? := by
  constructor
  · rw [trueAnomalies_getElem 199 (by norm_num)]
    congr 1
    push_cast
    ring
  · exact ((orbitPath_length_and_duplicate 1 0 0 0 0).2.2.2).symm

/-- Claim C4 (amended): the orbit path is sampled at uniform true-anomaly
intervals of 2π/199 over the closed range from 0 to 2π, with both
endpoints included, so the last point duplicates the θ=0 point. -/
theorem anomalies_cover_closed_range :
    trueAnomalies.length = 200 ∧
    trueAnomalies[0]? = some 0 ∧
    trueAnomalies[199]? = some (2 * Real.pi) ∧
    ∀ k : ℕ, k < 199 →
      ∃ θ1 θ2 : ℝ, trueAnomalies[k]? = some θ1 ∧ trueAnomalies[k + 1]? = some θ2 ∧
        θ2 - θ1 = 2 * Real.pi / 199 := by
  refine ⟨by simp only [trueAnomalies, List.length_map, List.length_range, numPoints], ?_, ?_, ?_⟩
  · rw [trueAnomalies_getElem 0 (by norm_num)]
    norm_num
  · rw [trueAnomalies_getElem 199 (by norm_num)]
    congr 1
    push_cast
    ring
  · intro k hk
    refine ⟨(k : ℝ) * (2 * Real.pi / 199), ((k : ℕ) + 1 : ℝ) * (2 * Real.pi / 199),
      trueAnomalies_getElem k (by omega), ?_, by ring⟩
    rw [trueAnomalies_getElem (k + 1) (by omega)]
    congr 1
    push_cast
    ring

/-- Claim C4 amended-claim witness at the first interval. -/
theorem anomalies_cover_closed_range_check :
    ∃ θ1 θ2 : ℝ, trueAnomalies[0]? = some θ1 ∧ trueAnomalies[0 + 1]? = some θ2 ∧
      θ2 - θ1 = 2 * Real.pi / 199 :=
  anomalies_cover_closed_range.2.2.2 0 (by norm_num)

/-- Claim C7: with eccentricity 0, every point of the orbit path lies at
Euclidean distance exactly `aKm` (the semi-major axis in kilometers, a
nonnegative length) from the origin, for any angles. -/
theorem circular_orbit_constant_radius (aKm i om w : ℝ) (p : Point3)
    (ha : 0 ≤ aKm) (hp : p ∈ orbitPathKm aKm 0 i om w) :
    Real.sqrt (p.1 ^ 2 + p.2.1 ^ 2 + p.2.2 ^ 2) = aKm := by
  rcases List.mem_map.mp hp with ⟨θ, hθ, rfl⟩
  rw [orbitPoint_normSq_circular, Real.sqrt_sq ha]

/-- Claim C7 witness at the first sampled point of a unit circular orbit. -/
theorem circular_orbit_constant_radius_check :
    Real.sqrt
        ((orbitPoint 1 0 0 0 0 (((0 : ℕ) : ℝ) * (2 * Real.pi / ((numPoints : ℝ) - 1)))).1 ^ 2 +
          (orbitPoint 1 0 0 0 0 (((0 : ℕ) : ℝ) * (2 * Real.pi / ((numPoints : ℝ) - 1)))).2.1 ^ 2 +
          (orbitPoint 1 0 0 0 0 (((0 : ℕ) : ℝ) * (2 * Real.pi / ((numPoints : ℝ) - 1)))).2.2 ^ 2) = 1 :=
  circular_orbit_constant_radius 1 0 0 0 _ (by norm_num)
    (orbitPoint_mem_path 1 0 0 0 0 0 (by norm_num [numPoints]))

/-- Claim C8: with inclination 0 the z-coordinate of every point of the
orbit path is zero, for any eccentricity and any node/periapsis angles. -/
theorem zero_inclination_planar (aKm e om w : ℝ) (p : Point3)
    (hp : p ∈ orbitPathKm aKm e 0 om w) : p.2.2 = 0 := by
  rcases List.mem_map.mp hp with ⟨θ, hθ, rfl⟩
  simp [orbitPoint]

/-- Claim C8 witness at the first sampled point. -/
theorem zero_inclination_planar_check :
    (orbitPoint 1 0 0 0 0 (((0 : ℕ) : ℝ) * (2 * Real.pi / ((numPoints : ℝ) - 1)))).2.2 = 0 :=
  zero_inclination_planar 1 0 0 0 _
    (orbitPoint_mem_path 1 0 0 0 0 0 (by norm_num [numPoints]))

/-! ## Per-object path lemmas for the batch loop -/

theorem processObject_full (world : SbdbWorld) (st : BatchState) (ast : NeoRecord)
    (j : SbdbJson) (el : OrbElems) (nm : String) (sp : Option ℚ)
    (hw : world (sbdbKeyOf ast) = FetchResult.response (Except.ok j))
    (hreq : requiredOk (elementsDict j) = true)
    (hfe : floatElems (elementsDict j) = some el)
    (hfc : fromClassicalOk el = true)
    (hnm : ast.name = some nm)
    (hsp : extractSpeed ast = Except.ok sp) :
    processObject world st ast =
      Except.ok
        ⟨dictInsert (nameKey ast) (orbitCoords el) st.orbits,
         dictInsert (nameKey ast) ⟨extractSize ast, sp⟩ st.props⟩ := by
  simp [processObject, hw, hreq, hfe, hfc, hnm, hsp]

theorem processObject_speed_error (world : SbdbWorld) (st : BatchState) (ast : NeoRecord)
    (j : SbdbJson) (el : OrbElems) (nm : String) (msg : String)
    (hw : world (sbdbKeyOf ast) = FetchResult.response (Except.ok j))
    (hreq : requiredOk (elementsDict j) = true)
    (hfe : floatElems (elementsDict j) = some el)
    (hfc : fromClassicalOk el = true)
    (hnm : ast.name = some nm)
    (hsp : extractSpeed ast = Except.error msg) :
    processObject world st ast =
      Except.ok ⟨dictInsert (nameKey ast) (orbitCoords el) st.orbits, st.props⟩ := by
  simp [processObject, hw, hreq, hfe, hfc, hnm, hsp]

/-! ## Claims about error handling and the artifact maps -/

/-- Claim C1 counterexample: with a service whose `requests.get` raises a
connection error, a two-object batch is aborted by the very first object's
network failure — the error propagates instead of being caught, and the
second object is never reached. -/
theorem network_error_aborts_batch :
    runBatch worldNet [("2025-01-01", [recSpeed5, recSpeed7])] =
      Except.error "connection refused" := rfl

/-- Claim C1 (amended): once the small-body request itself has returned a
response, every exception raised during the rest of that object's
resolution or transform (JSON decoding, element conversion, missing name,
speed conversion) is caught, the object is merely skipped, and no error
propagates; only an exception from issuing the request (which sits before
the `try`) can abort the batch. -/
theorem response_errors_are_caught (world : SbdbWorld) (st : BatchState) (ast : NeoRecord)
    (r : Except String SbdbJson)
    (h : world (sbdbKeyOf ast) = FetchResult.response r) :
    ∃ st2, processObject world st ast = Except.ok st2 := by
  rcases r with msg | j
  · exact ⟨st, by simp [processObject, h]⟩
  · cases hreq : requiredOk (elementsDict j) with
    | false => exact ⟨st, by simp [processObject, h, hreq]⟩
    | true =>
      cases hfe : floatElems (elementsDict j) with
      | none => exact ⟨st, by simp [processObject, h, hreq, hfe]⟩
      | some el =>
        cases hfc : fromClassicalOk el with
        | false => exact ⟨st, by simp [processObject, h, hreq, hfe, hfc]⟩
        | true =>
          cases hnm : ast.name with
          | none => exact ⟨st, by simp [processObject, h, hreq, hfe, hfc, hnm]⟩
          | some nm =>
            cases hsp : extractSpeed ast with
            | error msg =>
              exact ⟨_, processObject_speed_error world st ast j el nm msg h hreq hfe hfc hnm hsp⟩
            | ok sp => exact ⟨_, processObject_full world st ast j el nm sp h hreq hfe hfc hnm hsp⟩

/-- Claim C1 amended-claim witness: a response whose `.json()` raises is
caught and the object is skipped with the state unchanged. -/
theorem response_errors_are_caught_check :
    ∃ st2, processObject worldBadJson initState recPlainX = Except.ok st2 :=
  response_errors_are_caught worldBadJson initState recPlainX
    (Except.error "Expecting value") rfl

/-- Claim C2 counterexample: a record whose close-approach velocity string
is not numeric makes the speed `float(...)` raise after the orbit map was
already updated, so its name ends up in the orbit-coordinates artifact but
not in the properties artifact. -/
theorem orbit_key_without_props_entry :
    orbitKeysOf (runBatch worldFull [("2025-01-01", [recBadSpeed])]) = ["X"] ∧
    propKeysOf (runBatch worldFull [("2025-01-01", [recBadSpeed])]) = [] :=
  ⟨rfl, rfl⟩

theorem except_bind_ok {ε α β : Type} (a : α) (f : α → Except ε β) :
    (Except.ok a >>= f : Except ε β) = f a := rfl

theorem except_bind_error {ε α β : Type} (e : ε) (f : α → Except ε β) :
    ((Except.error e : Except ε α) >>= f : Except ε β) = Except.error e := rfl

theorem except_pure_eq {ε α : Type} (a : α) :
    (pure a : Except ε α) = Except.ok a := rfl

theorem mem_dictKeys_insert {α : Type} (k k2 : String) (v : α) (d : List (String × α)) :
    k ∈ dictKeys (dictInsert k2 v d) ↔ k = k2 ∨ k ∈ dictKeys d := by
  induction d with
  | nil => simp [dictInsert, dictKeys]
  | cons hd tl ih =>
    obtain ⟨k3, v3⟩ := hd
    by_cases h : k3 = k2
    · subst h
      simp [dictInsert, dictKeys]
    · simp [dictInsert, dictKeys, h] at ih ⊢
      tauto

theorem processObject_preserves_keySub (world : SbdbWorld) (st st2 : BatchState)
    (ast : NeoRecord)
    (hok : speedConvOk ast = true)
    (h : processObject world st ast = Except.ok st2)
    (hsub : ∀ k, k ∈ dictKeys st.orbits → k ∈ dictKeys st.props) :
    ∀ k, k ∈ dictKeys st2.orbits → k ∈ dictKeys st2.props := by
  cases hw : world (sbdbKeyOf ast) with
  | netErr msg => simp [processObject, hw] at h
  | response r =>
    rcases r with msg | j
    · simp [processObject, hw] at h
      subst h
      exact hsub
    · cases hreq : requiredOk (elementsDict j) with
      | false =>
        simp [processObject, hw, hreq] at h
        subst h
        exact hsub
      | true =>
        cases hfe : floatElems (elementsDict j) with
        | none =>
          simp [processObject, hw, hreq, hfe] at h
          subst h
          exact hsub
        | some el =>
          cases hfc : fromClassicalOk el with
          | false =>
            simp [processObject, hw, hreq, hfe, hfc] at h
            subst h
            exact hsub
          | true =>
            cases hnm : ast.name with
            | none =>
              simp [processObject, hw, hreq, hfe, hfc, hnm] at h
              subst h
              exact hsub
            | some nm =>
              cases hspc : extractSpeed ast with
              | error m => simp [speedConvOk, hspc] at hok
              | ok sp =>
                rw [processObject_full world st ast j el nm sp hw hreq hfe hfc hnm hspc] at h
                have h2 : st2 =
                    ⟨dictInsert (nameKey ast) (orbitCoords el) st.orbits,
                     dictInsert (nameKey ast) ⟨extractSize ast, sp⟩ st.props⟩ := by
                  cases h
                  rfl
                subst h2
                intro k hk
                rcases (mem_dictKeys_insert k (nameKey ast) (orbitCoords el) st.orbits).mp hk with
                  hke | hk2
                · exact (mem_dictKeys_insert k (nameKey ast) ⟨extractSize ast, sp⟩ st.props).mpr
                    (Or.inl hke)
                · exact (mem_dictKeys_insert k (nameKey ast) ⟨extractSize ast, sp⟩ st.props).mpr
                    (Or.inr (hsub k hk2))

theorem foldl_processObject_preserves_keySub (world : SbdbWorld) (asts : List NeoRecord) :
    ∀ st st2 : BatchState, (∀ r ∈ asts, speedConvOk r = true) →
      List.foldlM (processObject world) st asts = Except.ok st2 →
      (∀ k, k ∈ dictKeys st.orbits → k ∈ dictKeys st.props) →
      ∀ k, k ∈ dictKeys st2.orbits → k ∈ dictKeys st2.props := by
  induction asts with
  | nil =>
    intro st st2 _ h hsub
    rw [List.foldlM_nil, except_pure_eq] at h
    cases h
    exact hsub
  | cons a l ih =>
    intro st st2 hall h hsub
    rw [List.foldlM_cons] at h
    cases hpo : processObject world st a with
    | error m => rw [hpo, except_bind_error] at h; cases h
    | ok st1 =>
      rw [hpo, except_bind_ok] at h
      exact ih st1 st2 (fun r hr => hall r (List.mem_cons_of_mem a hr)) h
        (processObject_preserves_keySub world st st1 a (hall a (List.mem_cons_self a l)) hpo hsub)

theorem runBatch_loop_preserves_keySub (world : SbdbWorld)
    (feed : List (String × List NeoRecord)) :
    ∀ st st2 : BatchState, (∀ pr ∈ feed, ∀ r ∈ pr.2, speedConvOk r = true) →
      feed.foldlM (fun st pr => pr.2.foldlM (processObject world) st) st = Except.ok st2 →
      (∀ k, k ∈ dictKeys st.orbits → k ∈ dictKeys st.props) →
      ∀ k, k ∈ dictKeys st2.orbits → k ∈ dictKeys st2.props := by
  induction feed with
  | nil =>
    intro st st2 _ h hsub
    rw [List.foldlM_nil, except_pure_eq] at h
    cases h
    exact hsub
  | cons pr tl ih =>
    intro st st2 hall h hsub
    rw [List.foldlM_cons] at h
    cases hin : List.foldlM (processObject world) st pr.2 with
    | error m => rw [hin, except_bind_error] at h; cases h
    | ok st1 =>
      rw [hin, except_bind_ok] at h
      exact ih st1 st2 (fun q hq r hr => hall q (List.mem_cons_of_mem pr hq) r hr) h
        (foldl_processObject_preserves_keySub world pr.2 st st1
          (hall pr (List.mem_cons_self pr tl)) hin hsub)

/-- Claim C2 (amended): if no record's speed-field conversion raises, then
after a finished batch every name key of the orbit-coordinates map also has
an entry in the properties map; in general a speed-conversion failure can
leave a name in the orbit map only, because the orbit map is updated before
the properties map. -/
theorem orbit_keys_have_props_entries (world : SbdbWorld)
    (feed : List (String × List NeoRecord)) (st : BatchState) (k : String)
    (hall : ∀ pr ∈ feed, ∀ r ∈ pr.2, speedConvOk r = true)
    (hrun : runBatch world feed = Except.ok st)
    (hk : k ∈ dictKeys st.orbits) : k ∈ dictKeys st.props := by
  refine runBatch_loop_preserves_keySub world feed initState st hall hrun ?_ k hk
  intro k2 hk2
  simp [initState, dictKeys] at hk2

/-- Claim C2 amended-claim witness on a one-record batch that fills both
maps under the key `X`. -/
theorem orbit_keys_have_props_entries_check : "X" ∈ dictKeys stateAfterSpeed5.props :=
  orbit_keys_have_props_entries worldFull [("2025-01-01", [recSpeed5])] stateAfterSpeed5 "X"
    (by decide) rfl (by decide)

/-- Claim C5: an object whose resolved element mapping has a required
field absent, `None`, empty, or the literal `'null'` is skipped without
any exception: the per-object step returns the state unchanged, and a
batch consisting of that object alone finishes with both artifacts empty. -/
theorem missing_required_element_skips (world : SbdbWorld) (st : BatchState)
    (ast : NeoRecord) (j : SbdbJson) (k d : String)
    (hw : world (sbdbKeyOf ast) = FetchResult.response (Except.ok j))
    (hk : k ∈ requiredKeys)
    (hbad : dictLookup k (elementsDict j) = none ∨
      dictLookup k (elementsDict j) = some PyVal.vnone ∨
      dictLookup k (elementsDict j) = some (PyVal.vstr "") ∨
      dictLookup k (elementsDict j) = some (PyVal.vstr "null")) :
    processObject world st ast = Except.ok st ∧
    runBatch world [(d, [ast])] = Except.ok initState := by
  have hreq : requiredOk (elementsDict j) = false := by
    cases hcase : requiredOk (elementsDict j) with
    | false => rfl
    | true =>
      exfalso
      have hall := List.all_eq_true.mp (by simpa [requiredOk] using hcase) k hk
      rcases hbad with hb | hb | hb | hb <;> rw [hb] at hall <;> exact absurd hall (by decide)
  have hpo : ∀ st2 : BatchState, processObject world st2 ast = Except.ok st2 :=
    fun st2 => by simp [processObject, hw, hreq]
  refine ⟨hpo st, ?_⟩
  rw [runBatch, List.foldlM_cons, List.foldlM_cons, hpo initState, except_bind_ok,
    List.foldlM_nil, except_pure_eq, except_bind_ok, List.foldlM_nil, except_pure_eq]

/-- Claim C5 witness: a lookup answer missing the `e` element skips the
object and leaves both artifacts empty. -/
theorem missing_required_element_skips_check :
    processObject worldMissingE initState recPlainX = Except.ok initState ∧
    runBatch worldMissingE [("2025-01-01", [recPlainX])] = Except.ok initState :=
  missing_required_element_skips worldMissingE initState recPlainX jsonMissingE "e"
    "2025-01-01" rfl (by decide) (Or.inl rfl)

/-- Claim C9: an object whose close-approach data array is present but
empty still gets a properties entry, with a null speed, and no error is
raised, provided its orbit construction succeeded. -/
theorem empty_close_approach_yields_null_speed (world : SbdbWorld) (st : BatchState)
    (ast : NeoRecord) (j : SbdbJson) (el : OrbElems) (nm : String)
    (hw : world (sbdbKeyOf ast) = FetchResult.response (Except.ok j))
    (hreq : requiredOk (elementsDict j) = true)
    (hfe : floatElems (elementsDict j) = some el)
    (hfc : fromClassicalOk el = true)
    (hnm : ast.name = some nm)
    (hcad : ast.closeApproachData = some []) :
    processObject world st ast =
      Except.ok
        ⟨dictInsert (nameKey ast) (orbitCoords el) st.orbits,
         dictInsert (nameKey ast) ⟨extractSize ast, none⟩ st.props⟩ := by
  have hsp : extractSpeed ast = Except.ok none := by
    unfold extractSpeed
    rw [hcad]
  exact processObject_full world st ast j el nm none hw hreq hfe hfc hnm hsp

/-- Claim C9 witness: the record `Y` with an empty close-approach array
lands in the properties artifact with a null speed. -/
theorem empty_close_approach_yields_null_speed_check :
    processObject worldFull initState recEmptyCad =
      Except.ok
        ⟨dictInsert (nameKey recEmptyCad) (orbitCoords elemsFull) initState.orbits,
         dictInsert (nameKey recEmptyCad) ⟨extractSize recEmptyCad, none⟩ initState.props⟩ :=
  empty_close_approach_yields_null_speed worldFull initState recEmptyCad jsonFull elemsFull
    "Y" rfl rfl rfl rfl rfl rfl

/-- Claim C10: when two successfully processed records carry the same name
key, the later record silently overwrites the earlier one's entries in
both maps, and each artifact ends with exactly one entry for that key. -/
theorem duplicate_name_overwrites (world : SbdbWorld) (d : String) (r1 r2 : NeoRecord)
    (j1 j2 : SbdbJson) (el1 el2 : OrbElems) (nm1 nm2 : String) (sp1 sp2 : Option ℚ)
    (hw1 : world (sbdbKeyOf r1) = FetchResult.response (Except.ok j1))
    (hreq1 : requiredOk (elementsDict j1) = true)
    (hfe1 : floatElems (elementsDict j1) = some el1)
    (hfc1 : fromClassicalOk el1 = true)
    (hn1 : r1.name = some nm1)
    (hs1 : extractSpeed r1 = Except.ok sp1)
    (hw2 : world (sbdbKeyOf r2) = FetchResult.response (Except.ok j2))
    (hreq2 : requiredOk (elementsDict j2) = true)
    (hfe2 : floatElems (elementsDict j2) = some el2)
    (hfc2 : fromClassicalOk el2 = true)
    (hn2 : r2.name = some nm2)
    (hs2 : extractSpeed r2 = Except.ok sp2)
    (heq : nameKey r1 = nameKey r2) :
    runBatch world [(d, [r1, r2])] =
      Except.ok
        ⟨[(nameKey r2, orbitCoords el2)],
         [(nameKey r2, ⟨extractSize r2, sp2⟩)]⟩ := by
  have h1 := processObject_full world initState r1 j1 el1 nm1 sp1 hw1 hreq1 hfe1 hfc1 hn1 hs1
  have h2 := processObject_full world
    ⟨dictInsert (nameKey r1) (orbitCoords el1) initState.orbits,
     dictInsert (nameKey r1) ⟨extractSize r1, sp1⟩ initState.props⟩
    r2 j2 el2 nm2 sp2 hw2 hreq2 hfe2 hfc2 hn2 hs2
  rw [runBatch, List.foldlM_cons, List.foldlM_cons, h1, except_bind_ok, List.foldlM_cons,
    h2, except_bind_ok, List.foldlM_nil, except_pure_eq, except_bind_ok, List.foldlM_nil,
    except_pure_eq]
  simp [initState, dictInsert, heq]

/-- Claim C10 witness: two same-named records with speeds 5 and 7; the
final artifacts hold exactly the later record's data. -/
theorem duplicate_name_overwrites_check :
    runBatch worldFull [("2025-01-01", [recSpeed5, recSpeed7])] =
      Except.ok
        ⟨[(nameKey recSpeed7, orbitCoords elemsFull)],
         [(nameKey recSpeed7, ⟨extractSize recSpeed7, some 7⟩)]⟩ :=
  duplicate_name_overwrites worldFull "2025-01-01" recSpeed5 recSpeed7 jsonFull jsonFull
    elemsFull elemsFull "X" "X" (some 5) (some 7) rfl rfl rfl rfl rfl rfl rfl rfl rfl rfl
    rfl rfl rfl

end AsteroidAtlas
